import Mathlib

/-
Verification development for the flopy module src/flopy/modflow/mfwel.py
(MODFLOW Well package class ModflowWel).

The Python code is shallowly embedded: the mutable package object becomes a
structure, the constructor and methods become pure functions, Python
exceptions become Except values, and numeric text formatting and parsing are
reimplemented over exact integer arithmetic.  Python floats parsed from
decimal literals are modelled exactly as mant * 10 ^ exp (binary rounding of
the decimal literal is not modelled; none of the properties below depend on
it).  External collaborators that mfwel.py merely calls (the MfList transient
list utility and the Package base class) are modelled by explicit state
values or function parameters carrying exactly the interface mfwel.py uses.
-/

/-- Exact decimal value mant * 10 ^ exp, the model of a Python float that was
produced by parsing a decimal literal. -/
structure PyFloat where
  mant : Int
  exp : Int
deriving DecidableEq

/-- Semantic value of a PyFloat as a rational number. -/
def PyFloat.toRat (v : PyFloat) : ℚ :=
  (v.mant : ℚ) * (10 : ℚ) ^ v.exp

/-- Model of a Python exception: its class name and its message text. -/
structure PyErr where
  ty : String
  msg : String
deriving DecidableEq

/-- The numpy scalar types used by mfwel.py: np.int and np.float32. -/
inductive NpType where
  | int : NpType
  | float32 : NpType
deriving DecidableEq

/-- The attributes of the parent model object that mfwel.py reads. -/
structure Model where
  structured : Bool
  version : String
  verbose : Bool
deriving DecidableEq

/-- State of the MfList transient-list collaborator as far as mfwel.py
observes it: the tracked maximum active record count mxact, and the text its
write_transient method emits to the package file. -/
structure MfListModel where
  mxact : Nat
  transientText : String
deriving DecidableEq

/- ---------- small string utilities (structural, kernel-evaluable) ---------- -/

/-- Whether the second list starts with the first list. -/
def listStartsWith : List Char → List Char → Bool
  | [], _ => true
  | _ :: _, [] => false
  | p :: ps, c :: cs => p == c && listStartsWith ps cs

/-- Whether pat occurs somewhere in cs. -/
def listHasSub (pat : List Char) : List Char → Bool
  | [] => pat.isEmpty
  | c :: rest => listStartsWith pat (c :: rest) || listHasSub pat rest

/-- Model of the Python expression pat in s (substring containment). -/
def pyContains (s pat : String) : Bool :=
  listHasSub pat.data s.data

/-- Model of the Python str.strip method: remove leading and trailing
whitespace. -/
def pyStrip (s : String) : String :=
  String.mk (((s.data.dropWhile Char.isWhitespace).reverse.dropWhile Char.isWhitespace).reverse)

/-- Helper of pySplit: split a character list on whitespace runs, keeping the
current in-progress token reversed in acc. -/
def splitWsAux : List Char → List Char → List (List Char)
  | [], acc => if acc.isEmpty then [] else [acc.reverse]
  | c :: rest, acc =>
    if c.isWhitespace then
      if acc.isEmpty then splitWsAux rest [] else acc.reverse :: splitWsAux rest []
    else
      splitWsAux rest (c :: acc)

/-- Model of the Python str.split method with no argument: split on runs of
whitespace, discarding empty pieces. -/
def pySplit (s : String) : List String :=
  (splitWsAux s.data []).map String.mk

/-- Right-justify s in a field of width w by padding with spaces on the left
(no truncation when s is longer, as in Python format fields). -/
def padLeft (w : Nat) (s : String) : String :=
  String.mk (List.replicate (w - s.length) ' ') ++ s

/-- Model of the Python format field of shape colon-w-d applied to an
integer: decimal text right-justified to width w. -/
def fmtInt (w : Nat) (n : Int) : String :=
  padLeft w (toString n)

/- ---------- model of the Python general float format (as in 10.5g) ---------- -/

/-- Number of decimal digits of n (1 for 0). -/
def numDigits (n : Nat) : Nat :=
  (toString n).length

/-- Strip trailing zero characters from s. -/
def stripTrailZeros (s : String) : String :=
  String.mk (s.data.reverse.dropWhile (fun c => c == '0')).reverse

/-- Exponent text of the scientific form: sign then at least two digits. -/
def expText (e : Int) : String :=
  let sgn := if e < 0 then "-" else "+"
  let n := e.natAbs
  sgn ++ (if n < 10 then "0" ++ toString n else toString n)

/-- Model of the Python general float format with precision p (as in the
format field 10.5g, before padding).  The value is rendered with p
significant digits, trailing zeros removed, in fixed form when the decimal
exponent e satisfies -4 <= e < p and in scientific form otherwise.  Ties in
the significant-digit rounding are rounded away from zero here, while Python
rounds them to even; the two agree everywhere the properties below look. -/
def fmtGcore (p : Nat) (v : PyFloat) : String :=
  if v.mant = 0 then "0"
  else
    let sgn := if v.mant < 0 then "-" else ""
    let a := v.mant.natAbs
    let d := numDigits a
    let me : Nat × Int :=
      if d ≤ p then
        (a * 10 ^ (p - d), (d : Int) - 1 + v.exp)
      else
        let k := d - p
        let q := a / 10 ^ k
        let r := a % 10 ^ k
        let q2 := if 10 ^ k ≤ 2 * r then q + 1 else q
        if q2 = 10 ^ p then (10 ^ (p - 1), (d : Int) + v.exp)
        else (q2, (d : Int) - 1 + v.exp)
    let ds := toString me.fst
    let e := me.snd
    if -4 ≤ e ∧ e < (p : Int) then
      if 0 ≤ e then
        let k := e.toNat + 1
        let ip := String.mk (ds.data.take k)
        let fp := stripTrailZeros (String.mk (ds.data.drop k))
        sgn ++ ip ++ (if fp = "" then "" else "." ++ fp)
      else
        let z := (-e).toNat - 1
        let fp := stripTrailZeros (String.mk (List.replicate z '0') ++ ds)
        sgn ++ "0." ++ fp
    else
      let d1 := String.mk (ds.data.take 1)
      let rest := stripTrailZeros (String.mk (ds.data.drop 1))
      sgn ++ d1 ++ (if rest = "" then "" else "." ++ rest) ++ "e" ++ expText e

/-- Model of the Python format field of shape colon-w-dot-p-g applied to a
float value: general form with p significant digits, right-justified to
width w. -/
def fmtG (w p : Nat) (v : PyFloat) : String :=
  padLeft w (fmtGcore p v)

/- ---------- models of Python number parsing ---------- -/

/-- Decimal digit characters to the number they denote. -/
def digitsToNat (l : List Char) : Nat :=
  l.foldl (fun a c => a * 10 + (c.toNat - 48)) 0

/-- Split an optional leading sign off a character list, returning the sign
as an integer factor. -/
def takeSign : List Char → Int × List Char
  | '+' :: r => (1, r)
  | '-' :: r => (-1, r)
  | r => (1, r)

/-- Model of the Python float constructor np.float applied to a string (as
used on option tokens): optional sign, decimal digits with an optional
fraction part (at least one digit overall), and an optional decimal
exponent.  The special literals inf and nan and digit underscores are not
modelled; no option token below uses them. -/
def pyFloat (s : String) : Option PyFloat :=
  let cs := (pyStrip s).data
  let sc := takeSign cs
  let ip := sc.snd.takeWhile Char.isDigit
  let r1 := sc.snd.dropWhile Char.isDigit
  let fr : List Char × List Char :=
    match r1 with
    | '.' :: r => (r.takeWhile Char.isDigit, r.dropWhile Char.isDigit)
    | r => ([], r)
  if ip.isEmpty && fr.fst.isEmpty then none
  else
    let mant : Int := sc.fst * (digitsToNat (ip ++ fr.fst) : Int)
    let e0 : Int := -(fr.fst.length : Int)
    match fr.snd with
    | [] => some ⟨mant, e0⟩
    | c :: r =>
      if c == 'e' || c == 'E' then
        let se := takeSign r
        let ds := se.snd.takeWhile Char.isDigit
        if ds.isEmpty || !(se.snd.dropWhile Char.isDigit).isEmpty then none
        else some ⟨mant, e0 + se.fst * (digitsToNat ds : Int)⟩
      else none

/-- Model of the Python int constructor np.int applied to a string: optional
sign then decimal digits only. -/
def pyInt (s : String) : Option Int :=
  let cs := (pyStrip s).data
  let sc := takeSign cs
  let ds := sc.snd.takeWhile Char.isDigit
  if ds.isEmpty || !(sc.snd.dropWhile Char.isDigit).isEmpty then none
  else some (sc.fst * (digitsToNat ds : Int))

/- ---------- the ModflowWel package ---------- -/

/-- The attributes that ModflowWel.__init__ stores on the package object.
The Package base class contributes the bookkeeping attributes (extension,
name, unit number) which no property below reads; the attributes read by the
methods of mfwel.py are kept.  phiramp and phiramp_unit are none exactly
when the specify branch never ran, modelling the attributes being unset. -/
structure ModflowWel where
  heading : String
  url : String
  ipakcb : Int
  np : Nat
  specify : Bool
  phiramp : Option PyFloat
  phiramp_unit : Option Int
  options : List String
  dtype : List (String × NpType)
  stress_period_data : MfListModel
  parent : Model
deriving DecidableEq

/-- Embedding of the static method ModflowWel.get_default_dtype: the fixed
record schema, keyed on whether the grid is structured. -/
def get_default_dtype (structured : Bool) : List (String × NpType) :=
  if structured then
    [("k", NpType.int), ("i", NpType.int), ("j", NpType.int), ("flux", NpType.float32)]
  else
    [("node", NpType.int), ("flux", NpType.float32)]

/-- Modelled from the spec: the static helper add_to_dtype of the Package
base class (flopy.mbase, not under src/) appends each named auxiliary field,
with the given scalar type, to the schema. -/
def add_to_dtype (dtype : List (String × NpType)) (fieldNames : List String)
    (fieldType : NpType) : List (String × NpType) :=
  dtype ++ fieldNames.map (fun nm => (nm, fieldType))

/-- A numpy record array as mfwel.py uses one: a schema and the rows, each
row holding one rational value per field.  The sentinel -1.0e10 is exactly
representable both in np.float32 and in np.int, so rational cell values
model every field exactly. -/
structure Recarray where
  dtype : List (String × NpType)
  rows : List (List ℚ)

/-- Embedding of the static method ModflowWel.get_empty: build the schema
(default plus auxiliary float32 fields), then np.zeros of shape
(ncells, len(dtype)) is overwritten wholesale by the assignment of -1.0E+10
to every field, and np.core.records.fromarrays turns the transposed array
into a record array of length ncells; the net result is ncells records with
every field equal to -1.0e10. -/
def get_empty (ncells : Nat) (aux_names : Option (List String)) (structured : Bool) :
    Recarray :=
  let dtype := get_default_dtype structured
  let dtype :=
    match aux_names with
    | none => dtype
    | some ns => add_to_dtype dtype ns NpType.float32
  ⟨dtype, List.replicate ncells (dtype.map (fun _ => -(10 ^ 10 : ℚ)))⟩

/-- Embedding of the option-scanning loop of ModflowWel.__init__: walk the
options in order; at the first entry containing the text specify, take
t = entry.strip().split(), parse t[1] with np.float and t[2] with np.int
(in that evaluation order, an out-of-range index raising IndexError and a
failed conversion raising ValueError), remove the entry (options.pop(idx)),
and stop (break).  Returns the parsed pair, if any, and the options list as
the loop leaves it. -/
def scanSpecify : List String → Except PyErr (Option (PyFloat × Int) × List String)
  | [] => Except.ok (none, [])
  | opt :: rest =>
    if pyContains opt "specify" then
      let t := pySplit (pyStrip opt)
      match t[1]? with
      | none => Except.error ⟨"IndexError", "list index out of range"⟩
      | some s1 =>
        match pyFloat s1 with
        | none => Except.error ⟨"ValueError", "could not convert string to float: " ++ s1⟩
        | some phi =>
          match t[2]?  with
          | none => Except.error ⟨"IndexError", "list index out of range"⟩
          | some s2 =>
            match pyInt s2 with
            | none => Except.error
                ⟨"ValueError", "invalid literal for int() with base 10: " ++ s2⟩
            | some u => Except.ok (some (phi, u), rest)
    else
      match scanSpecify rest with
      | Except.error e => Except.error e
      | Except.ok (r, rest2) => Except.ok (r, opt :: rest2)

/-- Embedding of ModflowWel.__init__.  spdRes stands for the MfList
collaborator call MfList(self, stress_period_data), which happens after the
option scan and may itself fail; its failures are not caught in mfwel.py.
The registration side effect self.parent.add_package(self) acts on the
model's package registry, which nothing in mfwel.py reads back. -/
def welInit (model : Model) (ipakcb : Int) (spdRes : Except PyErr MfListModel)
    (dtype : Option (List (String × NpType))) (options : Option (List String)) :
    Except PyErr ModflowWel :=
  let heading := "# Well file for MODFLOW, generated by Flopy."
  let ipakcb2 : Int := if ipakcb ≠ 0 then 53 else 0
  let opts := match options with | none => [] | some o => o
  match scanSpecify opts with
  | Except.error e => Except.error e
  | Except.ok (res, opts2) =>
    let dt := match dtype with | some d => d | none => get_default_dtype model.structured
    match spdRes with
    | Except.error e => Except.error e
    | Except.ok spd =>
      Except.ok ⟨heading, "wel.htm", ipakcb2, 0, res.isSome, res.map Prod.fst,
        res.map Prod.snd, opts2, dt, spd, model⟩

/-- Embedding of ModflowWel.ncells: the tracked maximum of the transient
list. -/
def welNcells (p : ModflowWel) : Nat :=
  p.stress_period_data.mxact

/-- Embedding of ModflowWel.write_file, producing the full text written to
the package file.  The writes happen in source order: the heading line; then
(conditionally) the SPECIFY line; then the line that was started from mxact
and ipakcb in width-9 fields, extended with one space-separated copy of each
remaining option and a newline; finally whatever write_transient of the
transient-list collaborator emits. -/
def write_file (p : ModflowWel) : String :=
  let out := p.heading ++ "\n"
  let line := " " ++ fmtInt 9 (p.stress_period_data.mxact : Int) ++ " " ++ fmtInt 9 p.ipakcb
  let out :=
    if p.specify && (p.parent.version == "mfnwt") then
      out ++ "SPECIFY " ++ fmtG 10 5 (p.phiramp.getD ⟨0, 0⟩) ++ " "
        ++ fmtInt 10 (p.phiramp_unit.getD 0) ++ "\n"
    else out
  let line := p.options.foldl (fun acc opt => acc ++ " " ++ opt) line
  let line := line ++ "\n"
  let out := out ++ line
  out ++ p.stress_period_data.transientText

/-- Embedding of ModflowWel.add_record: delegate to the transient-list
collaborator (passed as a function of the stress period, the position and
the values) and re-raise any failure as a plain Exception whose message is
the fixed module-identifying text followed by str of the original error. -/
def add_record (collab : Nat → Nat → List ℚ → Except PyErr Unit)
    (kper : Nat) (index : Nat) (values : List ℚ) : Except PyErr Unit :=
  match collab kper index values with
  | Except.ok u => Except.ok u
  | Except.error e =>
    Except.error ⟨"Exception", "mfwel error adding record to list: " ++ e.msg⟩

instance {ε α : Type} [DecidableEq ε] [DecidableEq α] : DecidableEq (Except ε α) := by
  intro a b
  cases a with
  | error e1 =>
    cases b with
    | error e2 =>
      exact if h : e1 = e2 then isTrue (by rw [h]) else isFalse (by simp [h])
    | ok v2 => exact isFalse (by simp)
  | ok v1 =>
    cases b with
    | error e2 => exact isFalse (by simp)
    | ok v2 =>
      exact if h : v1 = v2 then isTrue (by rw [h]) else isFalse (by simp [h])

/-- The external-unit reference table type accepted (and ignored) by load. -/
def ExtUnitDict := List (Nat × String)

/-- Embedding of the static method ModflowWel.load: emit the diagnostic line
when the model is verbose, then delegate to the generic loader
Package.load(model, ModflowWel, f, nper) of the Package base class, passed
here as the function packageLoad.  The first component of the result is the
text written to standard output. -/
def load (packageLoad : Model → String → Option Nat → Except PyErr ModflowWel)
    (f : String) (model : Model) (nper : Option Nat)
    (ext_unit_dict : Option ExtUnitDict) : List String × Except PyErr ModflowWel :=
  ((if model.verbose then ["loading wel package file...\n"] else []),
    packageLoad model f nper)

/- ---------- shared helpers about write_file ---------- -/

/-- The SPECIFY line as write_file formats it. -/
def specLine (p : ModflowWel) : String :=
  "SPECIFY " ++ fmtG 10 5 (p.phiramp.getD ⟨0, 0⟩) ++ " "
    ++ fmtInt 10 (p.phiramp_unit.getD 0) ++ "\n"

/-- The fixed-width pair of the header-numbers line: the maximum active
record count and the budget-output unit, each right-justified to width 9. -/
def headerNumbers (p : ModflowWel) : String :=
  " " ++ fmtInt 9 (p.stress_period_data.mxact : Int) ++ " " ++ fmtInt 9 p.ipakcb

/-- The trailing-options text: one space-separated copy of each remaining
option string. -/
def optionsText : List String → String
  | [] => ""
  | opt :: rest => " " ++ opt ++ optionsText rest

/-- Everything write_file emits after the heading line and the optional
SPECIFY line. -/
def afterHeading (p : ModflowWel) : String :=
  headerNumbers p ++ optionsText p.options ++ "\n" ++ p.stress_period_data.transientText

theorem foldl_optionsText (opts : List String) (init : String) :
    opts.foldl (fun acc opt => acc ++ " " ++ opt) init = init ++ optionsText opts := by
  induction opts generalizing init with
  | nil => simp [optionsText]
  | cons o rest ih =>
    simp only [List.foldl_cons]
    rw [ih]
    simp [optionsText, String.append_assoc]

theorem str_empty_append (s : String) : "" ++ s = s := by
  cases s
  rfl

theorem write_file_decomp (p : ModflowWel) :
    write_file p = p.heading ++ "\n"
      ++ (if p.specify && (p.parent.version == "mfnwt") then specLine p else "")
      ++ afterHeading p := by
  simp only [write_file, specLine, afterHeading, headerNumbers]
  rw [foldl_optionsText]
  split
  · simp only [String.append_assoc]
  · simp only [String.append_assoc, str_empty_append]

/- ---------- C1 ---------- -/

/-- Modelled from the claim wording of C1: the same four pieces, but with
the SPECIFY line third, after the header-numbers line. -/
def write_file_claim_order (p : ModflowWel) : String :=
  p.heading ++ "\n" ++ headerNumbers p ++ optionsText p.options ++ "\n"
    ++ (if p.specify && (p.parent.version == "mfnwt") then specLine p else "")
    ++ p.stress_period_data.transientText

/-- A concrete package in specify mode on an mfnwt model, with one remaining
option. -/
def welC1pkg : ModflowWel :=
  ⟨"# Well file for MODFLOW, generated by Flopy.", "wel.htm", 53, 0, true,
    some ⟨5, -2⟩, some 7, ["AUX IFACE"], get_default_dtype true,
    ⟨3, "TRANSIENT\n"⟩, ⟨true, "mfnwt", false⟩⟩

/-- C1 counterexample: on a package with specify mode enabled and the mfnwt
model variant, write_file does not produce the claimed order (heading line,
then the header-numbers line with its options, then the SPECIFY line, then
the transient blocks): the SPECIFY line is written before the header-numbers
line, not after it. -/
theorem mfwel_c1_counterexample :
    (welC1pkg.specify && (welC1pkg.parent.version == "mfnwt")) = true
      ∧ write_file welC1pkg ≠ write_file_claim_order welC1pkg := by
  decide

/-- C1 (amended): the file produced by write_file consists of, in this
order: the static heading comment line; then, only when specify mode is
enabled and the model variant is mfnwt, the SPECIFY line; then a line with
the maximum active record count and the budget-output unit each
right-justified in a 9-character integer field, each remaining option string
appended space-separated, and a newline; and finally the delegated
per-stress-period transient text. -/
theorem mfwel_c1_amended (p : ModflowWel) :
    write_file p = p.heading ++ "\n"
      ++ (if p.specify && (p.parent.version == "mfnwt") then specLine p else "")
      ++ (headerNumbers p ++ optionsText p.options ++ "\n")
      ++ p.stress_period_data.transientText := by
  rw [write_file_decomp]
  unfold afterHeading
  simp [String.append_assoc]

/- ---------- C2 ---------- -/

/-- C2: write_file emits the SPECIFY line (damping factor in a 10-character
5-significant-digit general-format field, unit number in a 10-character
integer field) if and only if the specify flag is set and the parent model
version is mfnwt; with a different version the line is suppressed even when
the flag is set. -/
theorem mfwel_c2 (p : ModflowWel) :
    write_file p = p.heading ++ "\n" ++ specLine p ++ afterHeading p
      ↔ (p.specify = true ∧ p.parent.version = "mfnwt") := by
  rw [write_file_decomp]
  by_cases hc : (p.specify && (p.parent.version == "mfnwt")) = true
  · rw [if_pos hc]
    simp only [Bool.and_eq_true, beq_iff_eq] at hc
    exact iff_of_true rfl hc
  · rw [if_neg hc]
    constructor
    · intro heq
      exfalso
      have hlen := congrArg String.length heq
      simp only [String.length_append, str_empty_append, specLine,
        String.append_assoc] at hlen
      have h8 : ("SPECIFY " : String).length = 8 := rfl
      omega
    · intro hv
      exact absurd (by simp [hv.1, hv.2]) hc

/- ---------- C4 ---------- -/

/-- C4: a nonzero ipakcb argument is stored as the budget-output unit 53 and
a zero argument as 0, and the stored value is what write_file places in the
second width-9 field of the header-numbers line. -/
theorem mfwel_c4 (m : Model) (ip : Int) (spdRes : Except PyErr MfListModel)
    (dt : Option (List (String × NpType))) (opts : Option (List String))
    (pkg : ModflowWel) (h : welInit m ip spdRes dt opts = Except.ok pkg) :
    pkg.ipakcb = (if ip ≠ 0 then 53 else 0)
      ∧ headerNumbers pkg = " " ++ fmtInt 9 (pkg.stress_period_data.mxact : Int)
          ++ " " ++ fmtInt 9 (if ip ≠ 0 then 53 else 0) := by
  simp only [welInit] at h
  split at h
  · exact Except.noConfusion h
  · split at h
    · exact Except.noConfusion h
    · cases h
      exact ⟨rfl, rfl⟩

/-- A package built with nonzero ipakcb. -/
def welC4pkgA : ModflowWel :=
  ⟨"# Well file for MODFLOW, generated by Flopy.", "wel.htm", 53, 0, false,
    none, none, [], get_default_dtype true, ⟨4, "T\n"⟩, ⟨true, "mf2005", false⟩⟩

/-- A package built with zero ipakcb. -/
def welC4pkgB : ModflowWel :=
  ⟨"# Well file for MODFLOW, generated by Flopy.", "wel.htm", 0, 0, false,
    none, none, [], get_default_dtype true, ⟨4, "T\n"⟩, ⟨true, "mf2005", false⟩⟩

theorem mfwel_c4_witness :
    (welC4pkgA.ipakcb = (if (7 : Int) ≠ 0 then 53 else 0)
      ∧ headerNumbers welC4pkgA = " " ++ fmtInt 9 (welC4pkgA.stress_period_data.mxact : Int)
          ++ " " ++ fmtInt 9 (if (7 : Int) ≠ 0 then 53 else 0))
    ∧ (welC4pkgB.ipakcb = (if (0 : Int) ≠ 0 then 53 else 0)
      ∧ headerNumbers welC4pkgB = " " ++ fmtInt 9 (welC4pkgB.stress_period_data.mxact : Int)
          ++ " " ++ fmtInt 9 (if (0 : Int) ≠ 0 then 53 else 0)) :=
  ⟨mfwel_c4 ⟨true, "mf2005", false⟩ 7 (Except.ok ⟨4, "T\n"⟩) none none welC4pkgA (by decide),
   mfwel_c4 ⟨true, "mf2005", false⟩ 0 (Except.ok ⟨4, "T\n"⟩) none none welC4pkgB (by decide)⟩

/- ---------- C5 ---------- -/

/-- C5: get_empty with no auxiliary names and a structured grid yields a
table of the requested length whose every field of every record is the
sentinel -1.0e10, and with an auxiliary-name list the schema is the default
schema extended with each named field as a 32-bit float. -/
theorem mfwel_c5 (n n2 : Nat) (names : List String) :
    (get_empty n none true).rows.length = n
      ∧ (get_empty n none true).rows
          = List.replicate n
              (List.replicate (get_empty n none true).dtype.length (-(10 ^ 10 : ℚ)))
      ∧ (get_empty n2 (some names) true).dtype
          = get_default_dtype true ++ names.map (fun nm => (nm, NpType.float32)) := by
  refine ⟨by simp [get_empty], ?_, rfl⟩
  simp only [get_empty, List.map_const']

/- ---------- C6 ---------- -/

/-- C6: get_default_dtype is a total pure function of its boolean argument:
on a structured grid exactly the four fields k, i, j, flux in that order
with flux a 32-bit float, otherwise exactly the two fields node, flux. -/
theorem mfwel_c6 :
    get_default_dtype true
        = [("k", NpType.int), ("i", NpType.int), ("j", NpType.int), ("flux", NpType.float32)]
      ∧ get_default_dtype false = [("node", NpType.int), ("flux", NpType.float32)] :=
  ⟨rfl, rfl⟩

/- ---------- C7 ---------- -/

/-- C7: when the transient-list collaborator raises, add_record raises a
plain Exception whose message is the fixed module-identifying text followed
by the text of the original error (the original error class is discarded);
when the collaborator succeeds, add_record returns its result unchanged. -/
theorem mfwel_c7 (collab : Nat → Nat → List ℚ → Except PyErr Unit)
    (kper index : Nat) (values : List ℚ) :
    (∀ e, collab kper index values = Except.error e →
        add_record collab kper index values
          = Except.error ⟨"Exception", "mfwel error adding record to list: " ++ e.msg⟩)
      ∧ (∀ u, collab kper index values = Except.ok u →
        add_record collab kper index values = Except.ok u) := by
  constructor
  · intro e he
    simp [add_record, he]
  · intro u hu
    simp [add_record, hu]

/-- A collaborator that always fails. -/
def welC7collabBad : Nat → Nat → List ℚ → Except PyErr Unit :=
  fun _ _ _ => Except.error ⟨"ValueError", "shape mismatch"⟩

/-- A collaborator that always succeeds. -/
def welC7collabGood : Nat → Nat → List ℚ → Except PyErr Unit :=
  fun _ _ _ => Except.ok ()

theorem mfwel_c7_witness :
    add_record welC7collabBad 0 0 []
        = Except.error ⟨"Exception", "mfwel error adding record to list: shape mismatch"⟩
      ∧ add_record welC7collabGood 1 2 [] = Except.ok () :=
  ⟨(mfwel_c7 welC7collabBad 0 0 []).1 ⟨"ValueError", "shape mismatch"⟩ rfl,
   (mfwel_c7 welC7collabGood 1 2 []).2 () rfl⟩

/- ---------- C10 ---------- -/

/-- C10: the outcome of load (its standard-output text and its returned
package) is independent of the ext_unit_dict argument, which load accepts
but never passes to the generic Package loader. -/
theorem mfwel_c10 (packageLoad : Model → String → Option Nat → Except PyErr ModflowWel)
    (f : String) (m : Model) (nper : Option Nat) (e1 e2 : Option ExtUnitDict) :
    load packageLoad f m nper e1 = load packageLoad f m nper e2 :=
  rfl

/- ---------- shared helpers about the option scan ---------- -/

/-- The options list as the constructor loop leaves it: the first entry
containing the text specify removed, every other entry kept in its original
relative order. -/
def dropFirstSpecify : List String → List String
  | [] => []
  | o :: rest => if pyContains o "specify" then rest else o :: dropFirstSpecify rest

/-- The successful outcome of parsing one specify option entry: token 1 as a
float and token 2 as an int (0-based positions after whitespace splitting),
none when a token is missing or fails to convert. -/
def parse_specify_entry (opt : String) : Option (PyFloat × Int) :=
  match (pySplit (pyStrip opt))[1]? with
  | none => none
  | some s1 =>
    match pyFloat s1 with
    | none => none
    | some phi =>
      match (pySplit (pyStrip opt))[2]? with
      | none => none
      | some s2 =>
        match pyInt s2 with
        | none => none
        | some u => some (phi, u)

theorem scanSpecify_clean_prefix (pre : List String)
    (hpre : ∀ o ∈ pre, pyContains o "specify" = false) (tail : List String) :
    scanSpecify (pre ++ tail)
      = Except.map (fun rt => (rt.fst, pre ++ rt.snd)) (scanSpecify tail) := by
  induction pre with
  | nil =>
    cases h : scanSpecify tail with
    | error e => simp [Except.map, h]
    | ok rt => simp [Except.map, h]
  | cons o rest ih =>
    have ho : pyContains o "specify" = false := hpre o (by simp)
    have hrest : ∀ x ∈ rest, pyContains x "specify" = false :=
      fun x hx => hpre x (by simp [hx])
    simp only [List.cons_append, scanSpecify, ho, Bool.false_eq_true, if_false,
      List.append_eq]
    rw [ih hrest]
    cases h : scanSpecify tail with
    | error e => simp [Except.map]
    | ok rt => simp [Except.map]

theorem scanSpecify_head (opt : String) (post : List String)
    (hc : pyContains opt "specify" = true) :
    (∀ r, parse_specify_entry opt = some r →
        scanSpecify (opt :: post) = Except.ok (some r, post))
      ∧ (parse_specify_entry opt = none →
        ∃ e, scanSpecify (opt :: post) = Except.error e) := by
  constructor
  · intro r hr
    unfold parse_specify_entry at hr
    unfold scanSpecify
    simp only [hc, if_true]
    cases h1 : (pySplit (pyStrip opt))[1]? with
    | none => simp [h1] at hr
    | some s1 =>
      simp only [h1] at hr ⊢
      cases h2 : pyFloat s1 with
      | none => simp [h2] at hr
      | some phi =>
        simp only [h2] at hr ⊢
        cases h3 : (pySplit (pyStrip opt))[2]? with
        | none => simp [h3] at hr
        | some s2 =>
          simp only [h3] at hr ⊢
          cases h4 : pyInt s2 with
          | none => simp [h4] at hr
          | some u =>
            simp only [h4] at hr ⊢
            cases hr
            rfl
  · intro hn
    unfold parse_specify_entry at hn
    unfold scanSpecify
    simp only [hc, if_true]
    cases h1 : (pySplit (pyStrip opt))[1]? with
    | none =>
      simp only [h1]
      exact ⟨_, rfl⟩
    | some s1 =>
      simp only [h1] at hn ⊢
      cases h2 : pyFloat s1 with
      | none =>
        simp only [h2]
        exact ⟨_, rfl⟩
      | some phi =>
        simp only [h2] at hn ⊢
        cases h3 : (pySplit (pyStrip opt))[2]? with
        | none =>
          simp only [h3]
          exact ⟨_, rfl⟩
        | some s2 =>
          simp only [h3] at hn ⊢
          cases h4 : pyInt s2 with
          | none =>
            simp only [h4]
            exact ⟨_, rfl⟩
          | some u => simp [h4] at hn

theorem scanSpecify_options (opts : List String) (r : Option (PyFloat × Int))
    (rest : List String) (h : scanSpecify opts = Except.ok (r, rest)) :
    rest = dropFirstSpecify opts := by
  induction opts generalizing r rest with
  | nil =>
    cases h
    rfl
  | cons o tail ih =>
    cases hc : pyContains o "specify" with
    | true =>
      unfold scanSpecify at h
      simp only [hc, if_true] at h
      cases h1 : (pySplit (pyStrip o))[1]? with
      | none => simp [h1] at h
      | some s1 =>
        simp only [h1] at h
        cases h2 : pyFloat s1 with
        | none => simp [h2] at h
        | some phi =>
          simp only [h2] at h
          cases h3 : (pySplit (pyStrip o))[2]? with
          | none => simp [h3] at h
          | some s2 =>
            simp only [h3] at h
            cases h4 : pyInt s2 with
            | none => simp [h4] at h
            | some u =>
              simp only [h4] at h
              cases h
              simp [dropFirstSpecify, hc]
    | false =>
      unfold scanSpecify at h
      simp only [hc, Bool.false_eq_true, if_false] at h
      cases hs : scanSpecify tail with
      | error e => simp [hs] at h
      | ok rt =>
        obtain ⟨r2, rest2⟩ := rt
        simp only [hs] at h
        cases h
        simp only [dropFirstSpecify, hc, Bool.false_eq_true, if_false]
        exact congrArg (o :: ·) (ih r rest2 hs)

/- ---------- C3 ---------- -/

/-- The model used for the C3 concrete inputs. -/
def welC3model : Model := ⟨true, "mfnwt", false⟩

/-- The transient-list state used for the C3 concrete inputs. -/
def welC3spd : MfListModel := ⟨2, "TR\n"⟩

/-- C3 counterexample: for the options list with the single entry
specify 0.05 7 9, the two trailing whitespace-separated tokens are 7 and 9
(which parse as float 7 and int 9), but the constructor stores damping
factor 0.05 and unit 7 — the tokens at 0-based positions 1 and 2, not the
trailing two.  The stored damping factor 0.05 also differs semantically
from the trailing-token value 7. -/
theorem mfwel_c3_counterexample :
    (welInit welC3model 0 (Except.ok welC3spd) none (some ["specify 0.05 7 9"])).toOption.map
        (fun p => (p.phiramp, p.phiramp_unit))
      = some (some ⟨5, -2⟩, some 7)
      ∧ pySplit (pyStrip "specify 0.05 7 9") = ["specify", "0.05", "7", "9"]
      ∧ pyFloat "7" = some ⟨7, 0⟩
      ∧ pyInt "9" = some 9
      ∧ PyFloat.mk 5 (-2) ≠ PyFloat.mk 7 0
      ∧ PyFloat.toRat ⟨5, -2⟩ ≠ PyFloat.toRat ⟨7, 0⟩ := by
  refine ⟨by decide, by decide, by decide, by decide, by decide, ?_⟩
  simp only [PyFloat.toRat]
  norm_num

/-- C3 (amended): the scan stops at the first entry containing the token
specify; the tokens at whitespace-separated positions 1 and 2 (0-based; for
a well-formed three-token entry these are the trailing two) are parsed as
(float damping factor, int unit number), the specify flag becomes true, and
that entry is removed from the options list; later entries, including ones
that contain specify, are not processed.  In particular an options list
containing specify 0.05 7 yields specify true, damping factor 0.05, unit 7,
with that entry gone. -/
theorem mfwel_c3_amended (m : Model) (ip : Int) (spd : MfListModel)
    (dt : Option (List (String × NpType))) (pre : List String) (opt : String)
    (post : List String) (s1 s2 : String) (phi : PyFloat) (u : Int)
    (hpre : ∀ o ∈ pre, pyContains o "specify" = false)
    (hc : pyContains opt "specify" = true)
    (h1 : (pySplit (pyStrip opt))[1]? = some s1)
    (h2 : pyFloat s1 = some phi)
    (h3 : (pySplit (pyStrip opt))[2]? = some s2)
    (h4 : pyInt s2 = some u) :
    welInit m ip (Except.ok spd) dt (some (pre ++ opt :: post))
      = Except.ok ⟨"# Well file for MODFLOW, generated by Flopy.", "wel.htm",
          (if ip ≠ 0 then 53 else 0), 0, true, some phi, some u, pre ++ post,
          (match dt with | some d => d | none => get_default_dtype m.structured),
          spd, m⟩ := by
  have hparse : parse_specify_entry opt = some (phi, u) := by
    unfold parse_specify_entry
    simp only [h1, h2, h3, h4]
  have hscan : scanSpecify (opt :: post) = Except.ok (some (phi, u), post) :=
    (scanSpecify_head opt post hc).1 (phi, u) hparse
  simp only [welInit, scanSpecify_clean_prefix pre hpre (opt :: post), hscan,
    Except.map, Option.isSome_some, Option.map_some']

theorem mfwel_c3_witness :
    welInit welC3model 0 (Except.ok welC3spd) none
        (some (["a"] ++ "specify 0.05 7" :: ["specify 9 9"]))
      = Except.ok ⟨"# Well file for MODFLOW, generated by Flopy.", "wel.htm",
          (if (0 : Int) ≠ 0 then 53 else 0), 0, true, some ⟨5, -2⟩, some 7,
          ["a"] ++ ["specify 9 9"],
          (match (none : Option (List (String × NpType))) with
            | some d => d
            | none => get_default_dtype welC3model.structured),
          welC3spd, welC3model⟩ :=
  mfwel_c3_amended welC3model 0 welC3spd none ["a"] "specify 0.05 7" ["specify 9 9"]
    "0.05" "7" ⟨5, -2⟩ 7 (by decide) (by decide) (by decide) (by decide) (by decide)
    (by decide)

/- ---------- C8 ---------- -/

/-- The model used for the C8 concrete inputs. -/
def welC8model : Model := ⟨true, "mfnwt", false⟩

/-- The transient-list state used for the C8 concrete inputs. -/
def welC8spd : MfListModel := ⟨1, "T8\n"⟩

/-- C8 counterexample: the specify entry specify 1.5 3 extra has four
whitespace-separated tokens — the wrong token count for the three-token
specify form — yet construction does not fail: the constructor succeeds,
parsing tokens 1 and 2 and ignoring the extra trailing token. -/
theorem mfwel_c8_counterexample :
    (pySplit (pyStrip "specify 1.5 3 extra")).length = 4
      ∧ (welInit welC8model 0 (Except.ok welC8spd) none
            (some ["specify 1.5 3 extra"])).toOption.map
          (fun p => (p.specify, p.phiramp, p.phiramp_unit))
        = some (true, some ⟨15, -1⟩, some 3) := by
  decide

/-- C8 (amended): construction fails, with the error surfaced immediately
to the caller, exactly when the first specify-containing entry is missing
its position-1 or position-2 token or one of those two tokens fails numeric
conversion; an entry with extra tokens beyond position 2 succeeds, the
extra tokens being ignored. -/
theorem mfwel_c8_amended (m : Model) (ip : Int) (spd : MfListModel)
    (dt : Option (List (String × NpType))) (pre : List String) (opt : String)
    (post : List String)
    (hpre : ∀ o ∈ pre, pyContains o "specify" = false)
    (hc : pyContains opt "specify" = true) :
    (welInit m ip (Except.ok spd) dt (some (pre ++ opt :: post))).toOption = none
      ↔ parse_specify_entry opt = none := by
  cases hp : parse_specify_entry opt with
  | some r =>
    have hscan : scanSpecify (opt :: post) = Except.ok (some r, post) :=
      (scanSpecify_head opt post hc).1 r hp
    simp only [welInit, scanSpecify_clean_prefix pre hpre (opt :: post), hscan,
      Except.map, Except.toOption]
    simp
  | none =>
    obtain ⟨e, hscan⟩ := (scanSpecify_head opt post hc).2 hp
    simp only [welInit, scanSpecify_clean_prefix pre hpre (opt :: post), hscan,
      Except.map, Except.toOption]

theorem mfwel_c8_witness :
    ((welInit welC8model 0 (Except.ok welC8spd) none
          (some (([] : List String) ++ "specify abc 7" :: []))).toOption = none
      ↔ parse_specify_entry "specify abc 7" = none) :=
  mfwel_c8_amended welC8model 0 welC8spd none [] "specify abc 7" []
    (by simp) (by decide)

/- ---------- C9 ---------- -/

/-- C9: the constructor leaves the caller-supplied options list with the
first specify-containing entry removed and every other entry in its
original relative order; when options is omitted, a fresh empty list is
used and the caller observes no mutation. -/
theorem mfwel_c9 :
    (∀ (m : Model) (ip : Int) (spd : MfListModel)
        (dt : Option (List (String × NpType))) (opts : List String)
        (pkg : ModflowWel),
      welInit m ip (Except.ok spd) dt (some opts) = Except.ok pkg →
        pkg.options = dropFirstSpecify opts)
      ∧ (∀ (m : Model) (ip : Int) (spd : MfListModel)
          (dt : Option (List (String × NpType))) (pkg : ModflowWel),
        welInit m ip (Except.ok spd) dt none = Except.ok pkg → pkg.options = []) := by
  constructor
  · intro m ip spd dt opts pkg h
    simp only [welInit] at h
    cases hs : scanSpecify opts with
    | error e => simp [hs] at h
    | ok rt =>
      obtain ⟨r, rest⟩ := rt
      simp only [hs] at h
      cases h
      exact scanSpecify_options opts r rest hs
  · intro m ip spd dt pkg h
    simp only [welInit] at h
    cases h
    rfl

/-- The package produced from the C9 options list with entries around the
specify entry. -/
def welC9pkgA : ModflowWel :=
  ⟨"# Well file for MODFLOW, generated by Flopy.", "wel.htm", 53, 0, true,
    some ⟨1, 0⟩, some 2, ["a", "b"], get_default_dtype true, ⟨0, ""⟩,
    ⟨true, "mf2005", false⟩⟩

/-- The package produced with options omitted. -/
def welC9pkgB : ModflowWel :=
  ⟨"# Well file for MODFLOW, generated by Flopy.", "wel.htm", 0, 0, false,
    none, none, [], get_default_dtype true, ⟨0, ""⟩, ⟨true, "mf2005", false⟩⟩

theorem mfwel_c9_witness :
    welC9pkgA.options = dropFirstSpecify ["a", "specify 1 2", "b"]
      ∧ welC9pkgB.options = ([] : List String) :=
  ⟨mfwel_c9.1 ⟨true, "mf2005", false⟩ 1 ⟨0, ""⟩ none ["a", "specify 1 2", "b"]
      welC9pkgA (by decide),
   mfwel_c9.2 ⟨true, "mf2005", false⟩ 0 ⟨0, ""⟩ none welC9pkgB (by decide)⟩
